import Mathlib

/-!
Verification of the Shoutout Song backend share-store (`backend/main.py`).

The share store is a JSON file holding a mapping from an opaque token to a
share record.  We embed the store, its load/save/cleanup helpers, and the
HTTP handlers that touch it (`create_share_link`, `get_share`,
`share_unfurl`, `create_checkout_session`, `stripe_webhook`) as pure Lean
functions.  External effects are passed in explicitly:

  * wall-clock time (`time.time()`) is a rational `now`;
  * the backing file is a `FileState` (missing / unparseable / parsed store);
  * whether the OS write in `_save_share_store` succeeds is a boolean
    `writeOk` (the Python code catches every exception from the write);
  * the random draw of `secrets.token_urlsafe(16)` is the resulting token
    string, passed as a parameter;
  * `query_song_status` is represented by its `choices` list;
  * the Stripe signature check is an inductive `SigResult`.
-/

namespace Shoutout

/-- Python truthiness of an optional string: `None` and `""` are falsy. -/
def pyTruthy : Option String → Bool
  | none => false
  | some s => decide (s ≠ "")

/-- Python `a or b` on two optional strings (used for
`choices[0].get("url") or choices[0].get("audio_url")`). -/
def pyOrOpt (a b : Option String) : Option String :=
  match a with
  | none => b
  | some s => if s = "" then b else some s

/-- Python `a or d` where `d` is a plain default string (used for
`req.title or "A Shoutout Song 🎵"` etc.). -/
def pyOrD (a : Option String) (d : String) : String :=
  match a with
  | none => d
  | some s => if s = "" then d else s

/-- A persisted share record, the value type of the share store.  The
`create-share-link` path always writes a `lyrics` key; the webhook path
writes no `lyrics` key, so the field is optional. -/
structure ShareRecord where
  song_id : String
  audio_url : String
  title : String
  subtitle : String
  recipient_name : String
  subject : String
  lyrics : Option String
  created_at : ℚ
  deriving Repr, DecidableEq

/-- The in-memory share store: the JSON object token → record, as an
association list in insertion order (Python dicts preserve it). -/
abbrev Store := List (String × ShareRecord)

/-- `store.get(token)` on a Python dict. -/
def storeGet (store : Store) (token : String) : Option ShareRecord :=
  (store.find? (fun p => p.1 = token)).map (fun p => p.2)

/-- `store[token] = rec` on a Python dict: replace the entry if the key is
present, otherwise append it (dict keys are unique, insertion order kept). -/
def storeSet : Store → String → ShareRecord → Store
  | [], token, r => [(token, r)]
  | p :: s, token, r =>
      if p.1 = token then (token, r) :: s else p :: storeSet s token r

/-- State of the backing file `share_store.json`. -/
inductive FileState where
  | missing
  | corrupt
  | valid (store : Store)
  deriving Repr, DecidableEq

/-- `SHARE_TTL_SECONDS = 60 * 60 * 24 * 365 * 2` (two years). -/
def SHARE_TTL_SECONDS : ℚ := 60 * 60 * 24 * 365 * 2

/-- `_load_share_store`: missing file → `{}`; parse failure → `{}`
(the bare `except` clause); otherwise the parsed mapping. -/
def _load_share_store : FileState → Store
  | .missing => ([] : Store)
  | .corrupt => ([] : Store)
  | .valid s => s

/-- `_save_share_store`: tries to write the whole store to the file;
every exception is caught and only printed, so the function always
returns normally.  `writeOk` says whether the OS write succeeded; on
failure the file keeps its previous state. -/
def _save_share_store (store : Store) (writeOk : Bool) (file : FileState) :
    FileState :=
  if writeOk then .valid store else file

/-- `_cleanup_share_store`: delete every record with
`now - rec["created_at"] > SHARE_TTL_SECONDS`. -/
def _cleanup_share_store (store : Store) (now : ℚ) : Store :=
  store.filter (fun p => ¬ (now - p.2.created_at > SHARE_TTL_SECONDS))

/-- An `HTTPException(status_code, detail)`. -/
structure HTTPError where
  code : Nat
  detail : String
  deriving Repr, DecidableEq

/-- One entry of the `choices` list in a song-status payload. -/
structure Choice where
  url : Option String
  audio_url : Option String
  deriving Repr, DecidableEq

/-- `CreateShareLinkRequest`: the request body of `POST /create-share-link`.
There is no `subtitle` field. -/
structure CreateShareLinkRequest where
  song_id : String
  title : Option String
  recipient_name : Option String
  subject : Option String
  lyrics : Option String
  deriving Repr, DecidableEq

/-- The record `create_share_link` writes under the fresh token
(`store[token] = {...}`, main.py lines 421-430). -/
def createdRecord (req : CreateShareLinkRequest) (c : Choice) (now : ℚ) :
    ShareRecord :=
  { song_id := req.song_id
    audio_url := (pyOrOpt c.url c.audio_url).getD ""
    title := pyOrD req.title "A Shoutout Song 🎵"
    subtitle := "Made with Shoutout Song"
    recipient_name := pyOrD req.recipient_name ""
    subject := pyOrD req.subject ""
    lyrics := some (pyOrD req.lyrics "")
    created_at := now }

/-- `POST /create-share-link`.  `status_choices` is the `choices` list of
`query_song_status(req.song_id)`; `token` the outcome of
`secrets.token_urlsafe(16)`; `writeOk` whether the save's OS write
succeeds.  Returns the response body's `share_url` together with the
resulting file state, or the raised `HTTPException`. -/
def create_share_link (req : CreateShareLinkRequest)
    (status_choices : List Choice) (now : ℚ) (token : String)
    (writeOk : Bool) (file : FileState) :
    Except HTTPError (String × FileState) :=
  let store := _load_share_store file
  let store := _cleanup_share_store store now
  match status_choices with
  | [] => .error ⟨404, "Song not ready"⟩
  | c :: _ =>
    let au := pyOrOpt c.url c.audio_url
    if pyTruthy au then
      let store := storeSet store token (createdRecord req c now)
      let file := _save_share_store store writeOk file
      .ok ("https://shoutoutsong.com/share.html?t=" ++ token, file)
    else
      .error ⟨404, "Audio not ready"⟩

/-- `GET /share/{token}`: load, run the cleanup sweep, look up; a missing
record raises `HTTPException(404, "Expired")`. -/
def get_share (token : String) (now : ℚ) (file : FileState) :
    Except HTTPError ShareRecord :=
  let store := _load_share_store file
  let store := _cleanup_share_store store now
  match storeGet store token with
  | some r => .ok r
  | none => .error ⟨404, "Expired"⟩

/-- `GET /s/{token}` (the unfurl page): loads the store and looks the token
up directly — it does not run the cleanup sweep.  We abstract the HTML to
the pair (og_title, og_description) it embeds. -/
def share_unfurl (token : String) (file : FileState) : String × String :=
  let store := _load_share_store file
  match storeGet store token with
  | some r =>
      ("Shoutout Song - " ++ r.recipient_name ++ " and their love for " ++
         r.subject ++ " 🎵",
       "Listen to this custom shoutout song about " ++ r.recipient_name ++ "!")
  | none =>
      ("A Shoutout Song 🎵", "Listen to this custom shoutout song")

/-- Body of `POST /create-checkout-session` (fields read from the raw
JSON body; `recipient_name` and `subject` default to `""` via `.get`). -/
structure CheckoutBody where
  song_id : Option String
  recipient_name : String
  subject : String
  deriving Repr, DecidableEq

/-- `POST /create-checkout-session`.  `secretKey`/`priceId` are the
`STRIPE_SECRET_KEY`/`STRIPE_PRICE_ID` environment variables; `quote` the
URL-escaping function; `sessionResult` the outcome of
`stripe.checkout.Session.create` (its `url` on success, the exception
text on failure).  Returns the `checkout_url` or the raised
`HTTPException`. -/
def create_checkout_session (secretKey priceId : Option String)
    (body : CheckoutBody) (quote : String → String)
    (sessionResult : Except String String) : Except HTTPError String :=
  if ¬ pyTruthy secretKey ∨ ¬ pyTruthy priceId then
    .error ⟨500, "Stripe not configured"⟩
  else
    match body.song_id with
    | none => .error ⟨400, "Missing song_id"⟩
    | some song_id =>
      if song_id = "" then .error ⟨400, "Missing song_id"⟩
      else
        let url0 := "https://shoutoutsong.com/success?song_id=" ++ song_id
        let url1 := if body.recipient_name ≠ "" then
            url0 ++ "&name=" ++ quote body.recipient_name else url0
        let _success_url := if body.subject ≠ "" then
            url1 ++ "&subject=" ++ quote body.subject else url1
        match sessionResult with
        | .ok session_url => .ok session_url
        | .error e => .error ⟨500, "Stripe checkout failed: " ++ e⟩

/-- The `data.object` of a `checkout.session.completed` Stripe event:
the fields of the session the handler reads. -/
structure SessionData where
  song_id : Option String
  recipient_name : Option String
  subject : Option String
  customer_email : Option String
  deriving Repr, DecidableEq

/-- A parsed Stripe webhook event. -/
structure WebhookEvent where
  type : String
  session : SessionData
  deriving Repr, DecidableEq

/-- Outcome of `stripe.Webhook.construct_event`: a parsed event, or a
`ValueError` (bad payload), or a `SignatureVerificationError`. -/
inductive SigResult where
  | ok (event : WebhookEvent)
  | invalidPayload
  | invalidSignature
  deriving Repr, DecidableEq

/-- What the webhook handler returns: a JSON body (served with HTTP 200)
or a raised `HTTPException`. -/
inductive WebhookResponse where
  | json (status : String)
  | httpError (code : Nat) (detail : String)
  deriving Repr, DecidableEq

/-- The HTTP status code a `WebhookResponse` is served with: FastAPI
returns 200 for a plain dict return value. -/
def statusCodeOf : WebhookResponse → Nat
  | .json _ => 200
  | .httpError c _ => c

/-- Result of a webhook call: the response, the resulting file state of
the share store, and the addresses an email send was attempted for. -/
structure WebhookOutcome where
  response : WebhookResponse
  file : FileState
  emails : List String
  deriving Repr, DecidableEq

/-- The record the webhook path writes under the fresh token
(main.py lines 564-573); it carries no `lyrics` key and its title is
derived from the metadata's recipient name. -/
def webhookRecord (session : SessionData) (c : Choice) (now : ℚ) :
    ShareRecord :=
  { song_id := session.song_id.getD ""
    audio_url := (pyOrOpt c.url c.audio_url).getD ""
    title := "A song for " ++ session.recipient_name.getD "someone special"
    subtitle := "Made with Shoutout Song"
    recipient_name := session.recipient_name.getD "someone special"
    subject := session.subject.getD "something special"
    lyrics := none
    created_at := now }

/-- `POST /stripe-webhook`.  `webhookSecret` is `STRIPE_WEBHOOK_SECRET`;
`sig` the outcome of signature verification; `status_choices` the
`choices` list of `query_song_status(song_id)`; `token` the draw of
`secrets.token_urlsafe(16)`; `emailEnabled` the `EMAIL_ENABLED` flag;
`writeOk` whether the save's OS write succeeds.  Note the handler loads
the store without running the cleanup sweep, and swallows every
exception inside its `try` block. -/
def stripe_webhook (webhookSecret : Option String) (sig : SigResult)
    (status_choices : List Choice) (token : String) (now : ℚ)
    (emailEnabled : Bool) (writeOk : Bool) (file : FileState) :
    WebhookOutcome :=
  if ¬ pyTruthy webhookSecret then
    ⟨.json "webhook secret not configured", file, []⟩
  else
    match sig with
    | .invalidPayload => ⟨.httpError 400 "Invalid payload", file, []⟩
    | .invalidSignature => ⟨.httpError 400 "Invalid signature", file, []⟩
    | .ok event =>
      if event.type = "checkout.session.completed" then
        let session := event.session
        if ¬ pyTruthy session.customer_email then
          ⟨.json "no email", file, []⟩
        else if ¬ pyTruthy session.song_id then
          ⟨.json "no song_id", file, []⟩
        else
          let store := _load_share_store file
          match status_choices with
          | [] => ⟨.json "success", file, []⟩
          | c :: _ =>
            let au := pyOrOpt c.url c.audio_url
            if pyTruthy au then
              let store := storeSet store token (webhookRecord session c now)
              let file := _save_share_store store writeOk file
              ⟨.json "success", file,
                if emailEnabled then [session.customer_email.getD ""] else []⟩
            else
              ⟨.json "success", file, []⟩
      else
        ⟨.json "success", file, []⟩

/-! ### Lemmas about the store primitives -/

theorem storeGet_nil (tok : String) : storeGet ([] : Store) tok = none := rfl

theorem storeGet_cons (k : String) (v : ShareRecord) (s : Store) (tok : String) :
    storeGet ((k, v) :: s) tok =
      if k = tok then some v else storeGet s tok := by
  by_cases h : k = tok <;>
    simp [storeGet, List.find?_cons_of_pos, List.find?_cons_of_neg, h]

theorem cleanup_nil (now : ℚ) : _cleanup_share_store ([] : Store) now = [] := rfl

theorem cleanup_cons (p : String × ShareRecord) (s : Store) (now : ℚ) :
    _cleanup_share_store (p :: s) now =
      if now - p.2.created_at > SHARE_TTL_SECONDS then _cleanup_share_store s now
      else p :: _cleanup_share_store s now := by
  by_cases h : now - p.2.created_at > SHARE_TTL_SECONDS
  · simp [_cleanup_share_store, List.filter_cons, h]
    linarith
  · simp [_cleanup_share_store, List.filter_cons, h]
    linarith

/-- A token all of whose records are expired is invisible after the sweep. -/
theorem storeGet_cleanup_none (s : Store) (tok : String) (now : ℚ)
    (h : ∀ r : ShareRecord, (tok, r) ∈ s → now - r.created_at > SHARE_TTL_SECONDS) :
    storeGet (_cleanup_share_store s now) tok = none := by
  induction s with
  | nil => simp [cleanup_nil, storeGet_nil]
  | cons p s ih =>
    obtain ⟨k, v⟩ := p
    rw [cleanup_cons]
    by_cases hexp : now - v.created_at > SHARE_TTL_SECONDS
    · simp only [hexp, if_pos]
      exact ih (fun r hr => h r (List.mem_cons_of_mem _ hr))
    · by_cases hk : k = tok
      · subst hk
        exact absurd (h v (List.mem_cons_self _ _)) hexp
      · simp only [hexp, if_neg, ite_false]
        rw [storeGet_cons, if_neg hk]
        exact ih (fun r hr => h r (List.mem_cons_of_mem _ hr))

/-- The sweep never makes an absent token visible. -/
theorem storeGet_none_cleanup (s : Store) (tok : String) (now : ℚ)
    (h : storeGet s tok = none) :
    storeGet (_cleanup_share_store s now) tok = none := by
  induction s with
  | nil => simp [cleanup_nil, storeGet_nil]
  | cons p s ih =>
    obtain ⟨k, v⟩ := p
    rw [storeGet_cons] at h
    by_cases hk : k = tok
    · rw [if_pos hk] at h; cases h
    · rw [if_neg hk] at h
      rw [cleanup_cons]
      by_cases hexp : now - v.created_at > SHARE_TTL_SECONDS
      · simp only [hexp, if_pos]
        exact ih h
      · simp only [hexp, if_neg, ite_false]
        rw [storeGet_cons, if_neg hk]
        exact ih h

/-- A freshly inserted, unexpired record is found after the sweep. -/
theorem storeGet_cleanup_storeSet (s : Store) (tok : String) (r : ShareRecord)
    (now : ℚ) (hkeep : ¬ (now - r.created_at > SHARE_TTL_SECONDS)) :
    storeGet (_cleanup_share_store (storeSet s tok r) now) tok = some r := by
  induction s with
  | nil =>
    rw [show storeSet [] tok r = [(tok, r)] from rfl, cleanup_cons]
    simp only [hkeep, if_neg, ite_false]
    rw [storeGet_cons, if_pos rfl]
  | cons p s ih =>
    obtain ⟨k, v⟩ := p
    by_cases hk : k = tok
    · rw [show storeSet ((k, v) :: s) tok r = (tok, r) :: s from by
        simp [storeSet, hk]]
      rw [cleanup_cons]
      simp only [hkeep, if_neg, ite_false]
      rw [storeGet_cons, if_pos rfl]
    · rw [show storeSet ((k, v) :: s) tok r = (k, v) :: storeSet s tok r from by
        simp [storeSet, hk]]
      rw [cleanup_cons]
      by_cases hexp : now - v.created_at > SHARE_TTL_SECONDS
      · simp only [hexp, if_pos]
        exact ih
      · simp only [hexp, if_neg, ite_false]
        rw [storeGet_cons, if_neg hk]
        exact ih


/-- `get_share` yields the 404 "Expired" error whenever every record held
under the token is past the TTL (vacuously, also when the token is absent). -/
theorem get_share_expired_gen (tok : String) (now : ℚ) (file : FileState)
    (h : ∀ r : ShareRecord, (tok, r) ∈ _load_share_store file →
      now - r.created_at > SHARE_TTL_SECONDS) :
    get_share tok now file = .error ⟨404, "Expired"⟩ := by
  simp only [get_share]
  rw [storeGet_cleanup_none _ _ _ h]

/-! ### Concrete example data -/

def reqEx : CreateShareLinkRequest := ⟨"abc", none, none, none, none⟩

def choiceEx : Choice := ⟨some "https://x/y.mp3", none⟩

def recEx : ShareRecord :=
  ⟨"abc", "https://x/y.mp3", "A Shoutout Song 🎵", "Made with Shoutout Song",
   "", "", some "", 0⟩

def oldRecEx : ShareRecord :=
  ⟨"s1", "https://a/b.mp3", "T", "Made with Shoutout Song", "Ana", "cats",
   none, 0⟩

def fileEx : FileState := .valid [("tok", oldRecEx)]

/-- C1 (counterexample): with the OS write failing (`writeOk = false`),
`create_share_link` still answers `200 {share_url}` and the backing file
stays `missing` — the persistence failure is not surfaced. -/
theorem C1_counterexample :
    create_share_link reqEx [choiceEx] 0 "tok" false .missing =
      .ok ("https://shoutoutsong.com/share.html?t=tok", .missing) := rfl

/-- C1 (amended): `_save_share_store` catches every exception from the
durable write, so for every create-share-link request whose song has a
playable audio URL, a persistence failure on the synchronous save is
invisible to the caller: the endpoint still returns the `share_url` and
the backing file is left in its previous state. -/
theorem C1_save_failure_swallowed (req : CreateShareLinkRequest) (c : Choice)
    (cs : List Choice) (now : ℚ) (token : String) (file : FileState)
    (hau : pyTruthy (pyOrOpt c.url c.audio_url) = true) :
    create_share_link req (c :: cs) now token false file =
      .ok ("https://shoutoutsong.com/share.html?t=" ++ token, file) := by
  simp [create_share_link, _save_share_store, hau]

theorem C1_witness :
    pyTruthy (pyOrOpt choiceEx.url choiceEx.audio_url) = true ∧
    create_share_link reqEx [choiceEx] 0 "tok2" false .corrupt =
      .ok ("https://shoutoutsong.com/share.html?t=" ++ "tok2", .corrupt) :=
  ⟨rfl, C1_save_failure_swallowed reqEx choiceEx [] 0 "tok2" .corrupt rfl⟩

/-- C2 (counterexample): a record two years and a second old is treated as
absent by `get_share`, yet the unfurl page `GET /s/{token}` — which never
runs the cleanup sweep — still serves its metadata. -/
theorem C2_counterexample :
    get_share "tok" (SHARE_TTL_SECONDS + 1) fileEx = .error ⟨404, "Expired"⟩ ∧
    share_unfurl "tok" fileEx =
      ("Shoutout Song - Ana and their love for cats 🎵",
       "Listen to this custom shoutout song about Ana!") := by
  constructor
  · apply get_share_expired_gen
    intro r hr
    simp only [fileEx, _load_share_store, List.mem_singleton] at hr
    have : r = oldRecEx := (Prod.mk.injEq _ _ _ _).mp hr |>.2
    subst this
    show SHARE_TTL_SECONDS + 1 - oldRecEx.created_at > SHARE_TTL_SECONDS
    norm_num [oldRecEx]
  · rfl

/-- C2 (amended): the expiry sweep runs at the start of the `get_share`
and `create_share_link` store operations, but the unfurl page lookup
(`GET /s/{token}`) loads the store without sweeping: a record past the
TTL is absent from `get_share`, yet its `recipient_name` and `subject`
still populate the unfurl page's social-preview tags. -/
theorem C2_unfurl_skips_sweep (tok : String) (r : ShareRecord)
    (file : FileState) (now : ℚ)
    (hget : storeGet (_load_share_store file) tok = some r)
    (hexp : ∀ r' : ShareRecord, (tok, r') ∈ _load_share_store file →
      now - r'.created_at > SHARE_TTL_SECONDS) :
    get_share tok now file = .error ⟨404, "Expired"⟩ ∧
    share_unfurl tok file =
      ("Shoutout Song - " ++ r.recipient_name ++ " and their love for " ++
         r.subject ++ " 🎵",
       "Listen to this custom shoutout song about " ++ r.recipient_name ++ "!") := by
  refine ⟨get_share_expired_gen tok now file hexp, ?_⟩
  simp only [share_unfurl, hget]

theorem C2_witness :
    storeGet (_load_share_store fileEx) "tok" = some oldRecEx ∧
    get_share "tok" (SHARE_TTL_SECONDS + 2) fileEx = .error ⟨404, "Expired"⟩ ∧
    share_unfurl "tok" fileEx =
      ("Shoutout Song - " ++ "Ana" ++ " and their love for " ++ "cats" ++ " 🎵",
       "Listen to this custom shoutout song about " ++ "Ana" ++ "!") := by
  have h := C2_unfurl_skips_sweep "tok" oldRecEx fileEx (SHARE_TTL_SECONDS + 2)
    rfl
    (by
      intro r hr
      simp only [fileEx, _load_share_store, List.mem_singleton] at hr
      have : r = oldRecEx := (Prod.mk.injEq _ _ _ _).mp hr |>.2
      subst this
      norm_num [oldRecEx])
  exact ⟨rfl, h.1, h.2⟩

/-- C5: a record created at time `T` is returned by `get_share` at
`T + L - ε` and reported 404 "Expired" at `T + L + ε`, for every `ε > 0`,
where `L = SHARE_TTL_SECONDS`. -/
theorem C5_ttl_boundary (tok : String) (r : ShareRecord) (T ε : ℚ)
    (hT : r.created_at = T) (hε : 0 < ε) :
    get_share tok (T + SHARE_TTL_SECONDS - ε) (.valid [(tok, r)]) = .ok r ∧
    get_share tok (T + SHARE_TTL_SECONDS + ε) (.valid [(tok, r)]) =
      .error ⟨404, "Expired"⟩ := by
  constructor
  · simp only [get_share, _load_share_store]
    rw [cleanup_cons]
    have hk : ¬ (T + SHARE_TTL_SECONDS - ε - (tok, r).2.created_at >
        SHARE_TTL_SECONDS) := by
      simp only [hT]
      linarith
    rw [if_neg hk, cleanup_nil, storeGet_cons, if_pos rfl]
  · apply get_share_expired_gen
    intro r' hr'
    simp only [_load_share_store, List.mem_singleton] at hr'
    have : r' = r := (Prod.mk.injEq _ _ _ _).mp hr' |>.2
    subst this
    rw [hT]
    linarith

theorem C5_witness :
    oldRecEx.created_at = 0 ∧ (0 : ℚ) < 1 ∧
    get_share "tok" (0 + SHARE_TTL_SECONDS - 1) (.valid [("tok", oldRecEx)]) =
      .ok oldRecEx ∧
    get_share "tok" (0 + SHARE_TTL_SECONDS + 1) (.valid [("tok", oldRecEx)]) =
      .error ⟨404, "Expired"⟩ :=
  ⟨rfl, by norm_num,
   (C5_ttl_boundary "tok" oldRecEx 0 1 rfl (by norm_num)).1,
   (C5_ttl_boundary "tok" oldRecEx 0 1 rfl (by norm_num)).2⟩

/-- C6: a token with no record in the store and a token all of whose
records are expired both make `get_share` answer the same
`HTTPException(404, "Expired")` — the two not-found outcomes are equal. -/
theorem C6_not_found_indistinguishable (file₁ file₂ : FileState)
    (tok₁ tok₂ : String) (now₁ now₂ : ℚ)
    (h₁ : storeGet (_load_share_store file₁) tok₁ = none)
    (h₂ : ∀ r : ShareRecord, (tok₂, r) ∈ _load_share_store file₂ →
      now₂ - r.created_at > SHARE_TTL_SECONDS) :
    get_share tok₁ now₁ file₁ = .error ⟨404, "Expired"⟩ ∧
    get_share tok₂ now₂ file₂ = get_share tok₁ now₁ file₁ := by
  have e₁ : get_share tok₁ now₁ file₁ = .error ⟨404, "Expired"⟩ := by
    simp only [get_share]
    rw [storeGet_none_cleanup _ _ _ h₁]
  exact ⟨e₁, by rw [e₁, get_share_expired_gen tok₂ now₂ file₂ h₂]⟩

theorem C6_witness :
    storeGet (_load_share_store fileEx) "never-issued" = none ∧
    get_share "never-issued" 5 fileEx = .error ⟨404, "Expired"⟩ ∧
    get_share "tok" (SHARE_TTL_SECONDS + 3) fileEx =
      get_share "never-issued" 5 fileEx := by
  have h := C6_not_found_indistinguishable fileEx fileEx "never-issued" "tok"
    5 (SHARE_TTL_SECONDS + 3)
    rfl
    (by
      intro r hr
      simp only [fileEx, _load_share_store, List.mem_singleton] at hr
      have : r = oldRecEx := (Prod.mk.injEq _ _ _ _).mp hr |>.2
      subst this
      norm_num [oldRecEx])
  exact ⟨rfl, h.1, h.2⟩

/-- C7: loading the share store from a missing backing file or from a
file that fails to parse yields the empty store; `_load_share_store` is a
total function, so no exception reaches the read path. -/
theorem C7_load_fail_open :
    _load_share_store .missing = ([] : Store) ∧
    _load_share_store .corrupt = ([] : Store) :=
  ⟨rfl, rfl⟩

/-- C3: for every valid creation input (a song whose status has a playable
audio URL), `create_share_link` followed immediately by `get_share` with
the returned token yields a record whose fields equal the input fields,
`title` defaulting to "A Shoutout Song 🎵" and the optional
`recipient_name`, `subject`, `lyrics` defaulting to `""`. -/
theorem C3_create_get_roundtrip (req : CreateShareLinkRequest) (c : Choice)
    (cs : List Choice) (now : ℚ) (token : String) (file : FileState)
    (url : String) (file' : FileState)
    (hau : pyTruthy (pyOrOpt c.url c.audio_url) = true)
    (hcreate : create_share_link req (c :: cs) now token true file =
      .ok (url, file')) :
    get_share token now file' =
      .ok { song_id := req.song_id
            audio_url := (pyOrOpt c.url c.audio_url).getD ""
            title := pyOrD req.title "A Shoutout Song 🎵"
            subtitle := "Made with Shoutout Song"
            recipient_name := pyOrD req.recipient_name ""
            subject := pyOrD req.subject ""
            lyrics := some (pyOrD req.lyrics "")
            created_at := now } := by
  have hfile : file' =
      .valid (storeSet (_cleanup_share_store (_load_share_store file) now)
        token (createdRecord req c now)) := by
    simp [create_share_link, hau, _save_share_store] at hcreate
    exact hcreate.2.symm
  subst hfile
  simp only [get_share, _load_share_store]
  rw [storeGet_cleanup_storeSet _ _ _ _ (by
    simp only [createdRecord]
    norm_num [SHARE_TTL_SECONDS])]
  rfl

theorem C3_witness :
    pyTruthy (pyOrOpt choiceEx.url choiceEx.audio_url) = true ∧
    create_share_link reqEx [choiceEx] 0 "tokC3" true .missing =
      .ok ("https://shoutoutsong.com/share.html?t=tokC3",
        .valid [("tokC3", recEx)]) ∧
    get_share "tokC3" 0 (.valid [("tokC3", recEx)]) =
      .ok { song_id := reqEx.song_id
            audio_url := (pyOrOpt choiceEx.url choiceEx.audio_url).getD ""
            title := pyOrD reqEx.title "A Shoutout Song 🎵"
            subtitle := "Made with Shoutout Song"
            recipient_name := pyOrD reqEx.recipient_name ""
            subject := pyOrD reqEx.subject ""
            lyrics := some (pyOrD reqEx.lyrics "")
            created_at := 0 } :=
  ⟨rfl, rfl,
   C3_create_get_roundtrip reqEx choiceEx [] 0 "tokC3" .missing
     "https://shoutoutsong.com/share.html?t=tokC3" (.valid [("tokC3", recEx)])
     rfl rfl⟩

def reqEx2 : CreateShareLinkRequest := ⟨"def", some "Hi", none, none, some "la la"⟩

def choiceEx2 : Choice := ⟨none, some "https://x/z.mp3"⟩

def recEx2 : ShareRecord :=
  ⟨"def", "https://x/z.mp3", "Hi", "Made with Shoutout Song", "", "",
   some "la la", 0⟩

/-- C4 (counterexample): when the random source draws the same value
twice, two sequential `create_share_link` calls return the same token
(the same `share_url`), and the second call silently overwrites the live
record of the first — there is no collision check. -/
theorem C4_counterexample :
    create_share_link reqEx [choiceEx] 0 "tok" true .missing =
      .ok ("https://shoutoutsong.com/share.html?t=tok",
        .valid [("tok", recEx)]) ∧
    create_share_link reqEx2 [choiceEx2] 0 "tok" true
        (.valid [("tok", recEx)]) =
      .ok ("https://shoutoutsong.com/share.html?t=tok",
        .valid [("tok", recEx2)]) := by
  refine ⟨rfl, ?_⟩
  have hclean : _cleanup_share_store [("tok", recEx)] 0 = [("tok", recEx)] := by
    rw [cleanup_cons, if_neg (by norm_num [recEx, SHARE_TTL_SECONDS]),
      cleanup_nil]
  simp only [create_share_link, _load_share_store, hclean]
  rfl

/-- C4 (amended): `create_share_link` embeds the random draw of
`secrets.token_urlsafe(16)` into the returned `share_url` unchanged and
performs no collision check, so two sequential create calls return
distinct tokens exactly when the two random draws are distinct. -/
theorem C4_tokens_distinct_iff_draws_distinct (req₁ req₂ : CreateShareLinkRequest)
    (c₁ c₂ : Choice) (cs₁ cs₂ : List Choice) (now₁ now₂ : ℚ)
    (t₁ t₂ : String) (w₁ w₂ : Bool) (file₁ file₂ : FileState)
    (url₁ url₂ : String) (f₁ f₂ : FileState)
    (hne : t₁ ≠ t₂)
    (h₁ : create_share_link req₁ (c₁ :: cs₁) now₁ t₁ w₁ file₁ = .ok (url₁, f₁))
    (h₂ : create_share_link req₂ (c₂ :: cs₂) now₂ t₂ w₂ file₂ = .ok (url₂, f₂)) :
    url₁ ≠ url₂ := by
  have e₁ : url₁ = "https://shoutoutsong.com/share.html?t=" ++ t₁ := by
    by_cases hau : pyTruthy (pyOrOpt c₁.url c₁.audio_url) = true
    · simp [create_share_link, hau] at h₁
      exact h₁.1.symm
    · simp [create_share_link, hau] at h₁
  have e₂ : url₂ = "https://shoutoutsong.com/share.html?t=" ++ t₂ := by
    by_cases hau : pyTruthy (pyOrOpt c₂.url c₂.audio_url) = true
    · simp [create_share_link, hau] at h₂
      exact h₂.1.symm
    · simp [create_share_link, hau] at h₂
  rw [e₁, e₂]
  intro hc
  apply hne
  have hd := congrArg String.data hc
  simp [String.data_append] at hd
  exact String.ext hd

theorem C4_witness :
    ("tokA" : String) ≠ "tokB" ∧
    create_share_link reqEx [choiceEx] 0 "tokA" true .missing =
      .ok ("https://shoutoutsong.com/share.html?t=tokA",
        .valid [("tokA", recEx)]) ∧
    create_share_link reqEx [choiceEx] 0 "tokB" true .missing =
      .ok ("https://shoutoutsong.com/share.html?t=tokB",
        .valid [("tokB", recEx)]) ∧
    ("https://shoutoutsong.com/share.html?t=tokA" : String) ≠
      "https://shoutoutsong.com/share.html?t=tokB" :=
  ⟨by decide, rfl, rfl,
   C4_tokens_distinct_iff_draws_distinct reqEx reqEx choiceEx choiceEx [] []
     0 0 "tokA" "tokB" true true .missing .missing _ _ _ _ (by decide) rfl rfl⟩

def sessionEx : SessionData :=
  ⟨some "abc", some "Ana", some "cats", some "ana@example.com"⟩

def eventEx : WebhookEvent := ⟨"checkout.session.completed", sessionEx⟩

def sessionNoEmail : SessionData := ⟨some "abc", some "Ana", some "cats", none⟩

def eventNoEmail : WebhookEvent := ⟨"checkout.session.completed", sessionNoEmail⟩

/-- C8 (counterexample): a webhook call with `STRIPE_WEBHOOK_SECRET`
unset is answered with HTTP 200 and body
`{"status": "webhook secret not configured"}` — not with a 500. -/
theorem C8_counterexample :
    stripe_webhook none (.ok eventEx) [choiceEx] "tok" 0 true true .missing =
      ⟨.json "webhook secret not configured", .missing, []⟩ ∧
    statusCodeOf
      (stripe_webhook none (.ok eventEx) [choiceEx] "tok" 0 true true
        .missing).response = 200 :=
  ⟨rfl, rfl⟩

/-- C8 (amended): with the Stripe secret key or price id unset, every
checkout request fails with `HTTPException(500, "Stripe not configured")`
at call time; with the webhook signing secret unset, every webhook
request is instead answered with HTTP 200 and the body status
`"webhook secret not configured"`, also at call time and with no side
effects.  (The module itself only logs a warning at startup.) -/
theorem C8_config_errors (secretKey priceId webhookSecret : Option String)
    (hcfg : pyTruthy secretKey = false ∨ pyTruthy priceId = false)
    (hws : pyTruthy webhookSecret = false)
    (body : CheckoutBody) (quote : String → String)
    (sessionResult : Except String String) (sig : SigResult)
    (cs : List Choice) (tok : String) (now : ℚ) (em w : Bool)
    (file : FileState) :
    create_checkout_session secretKey priceId body quote sessionResult =
      .error ⟨500, "Stripe not configured"⟩ ∧
    stripe_webhook webhookSecret sig cs tok now em w file =
      ⟨.json "webhook secret not configured", file, []⟩ := by
  constructor
  · rcases hcfg with h | h <;>
      simp [create_checkout_session, h]
  · simp [stripe_webhook, hws]

theorem C8_witness :
    pyTruthy (none : Option String) = false ∧
    pyTruthy (some "") = false ∧
    create_checkout_session none (some "price_123")
        ⟨some "abc", "Ana", "cats"⟩ id (.ok "https://stripe/session") =
      .error ⟨500, "Stripe not configured"⟩ ∧
    stripe_webhook (some "") (.ok eventEx) [choiceEx] "tok" 0 true true
        .missing =
      ⟨.json "webhook secret not configured", .missing, []⟩ :=
  ⟨rfl, rfl,
   (C8_config_errors none (some "price_123") (some "") (Or.inl rfl)
      rfl ⟨some "abc", "Ana", "cats"⟩ id (.ok "https://stripe/session")
      (.ok eventEx) [choiceEx] "tok" 0 true true .missing).1,
   (C8_config_errors none (some "price_123") (some "") (Or.inl rfl)
      rfl ⟨some "abc", "Ana", "cats"⟩ id (.ok "https://stripe/session")
      (.ok eventEx) [choiceEx] "tok" 0 true true .missing).2⟩

/-- C9: a signature-valid `checkout.session.completed` webhook event whose
session has no `customer_details.email` is answered with status
`"no email"`, the share-store file is left unchanged (no record created),
and no email send is attempted. -/
theorem C9_no_email_no_side_effects (webhookSecret : Option String)
    (event : WebhookEvent) (cs : List Choice) (tok : String) (now : ℚ)
    (em w : Bool) (file : FileState)
    (hs : pyTruthy webhookSecret = true)
    (ht : event.type = "checkout.session.completed")
    (he : pyTruthy event.session.customer_email = false) :
    stripe_webhook webhookSecret (.ok event) cs tok now em w file =
      ⟨.json "no email", file, []⟩ := by
  simp [stripe_webhook, hs, ht, he]

theorem C9_witness :
    pyTruthy (some "whsec_x") = true ∧
    eventNoEmail.type = "checkout.session.completed" ∧
    pyTruthy eventNoEmail.session.customer_email = false ∧
    stripe_webhook (some "whsec_x") (.ok eventNoEmail) [choiceEx] "tok" 0
        true true fileEx =
      ⟨.json "no email", fileEx, []⟩ :=
  ⟨rfl, rfl, rfl,
   C9_no_email_no_side_effects (some "whsec_x") eventNoEmail [choiceEx]
     "tok" 0 true true fileEx rfl rfl rfl⟩

/-- All records of a store carry the fixed subtitle. -/
def subtitleAllFixed (s : Store) : Bool :=
  s.all (fun p => p.2.subtitle = "Made with Shoutout Song")

theorem subtitleAllFixed_filter (s : Store) (now : ℚ)
    (h : subtitleAllFixed s = true) :
    subtitleAllFixed (_cleanup_share_store s now) = true := by
  rw [subtitleAllFixed, List.all_eq_true] at h ⊢
  intro p hp
  exact h p (List.mem_filter.mp hp).1

theorem subtitleAllFixed_storeSet (s : Store) (tok : String) (r : ShareRecord)
    (h : subtitleAllFixed s = true)
    (hr : r.subtitle = "Made with Shoutout Song") :
    subtitleAllFixed (storeSet s tok r) = true := by
  induction s with
  | nil =>
    simp [storeSet, subtitleAllFixed, hr]
  | cons p s ih =>
    simp only [subtitleAllFixed, List.all_cons, Bool.and_eq_true] at h
    by_cases hk : p.1 = tok
    · rw [show storeSet (p :: s) tok r = (tok, r) :: s from by
        simp [storeSet, hk]]
      simp only [subtitleAllFixed, List.all_cons, Bool.and_eq_true]
      exact ⟨by simp [hr], h.2⟩
    · rw [show storeSet (p :: s) tok r = p :: storeSet s tok r from by
        simp [storeSet, hk]]
      simp only [subtitleAllFixed, List.all_cons, Bool.and_eq_true]
      exact ⟨h.1, ih h.2⟩

/-- C10: every record the system writes to the share store carries the
constant subtitle "Made with Shoutout Song": `CreateShareLinkRequest`
has no `subtitle` field, `create_share_link` and the webhook path both
hard-code the subtitle, so the invariant "all stored records have the
fixed subtitle" is preserved by both write paths. -/
theorem C10_subtitle_constant (req : CreateShareLinkRequest)
    (cs : List Choice) (now : ℚ) (tok : String) (w : Bool)
    (file : FileState) (webhookSecret : Option String) (sig : SigResult)
    (em : Bool) (url : String) (file' : FileState)
    (hinv : subtitleAllFixed (_load_share_store file) = true)
    (hcreate : create_share_link req cs now tok w file = .ok (url, file')) :
    subtitleAllFixed (_load_share_store file') = true ∧
    subtitleAllFixed (_load_share_store
      (stripe_webhook webhookSecret sig cs tok now em w file).file) = true := by
  constructor
  · match cs with
    | [] => simp [create_share_link] at hcreate
    | c :: cs' =>
      by_cases hau : pyTruthy (pyOrOpt c.url c.audio_url) = true
      · simp [create_share_link, hau] at hcreate
        rw [← hcreate.2]
        match w with
        | false => exact hinv
        | true =>
          simp only [_save_share_store, if_pos, _load_share_store]
          exact subtitleAllFixed_storeSet _ _ _
            (subtitleAllFixed_filter _ _ hinv) rfl
      · simp [create_share_link, hau] at hcreate
  · by_cases hws : pyTruthy webhookSecret = true
    · match sig with
      | .invalidPayload => simpa [stripe_webhook, hws] using hinv
      | .invalidSignature => simpa [stripe_webhook, hws] using hinv
      | .ok event =>
        by_cases ht : event.type = "checkout.session.completed"
        · by_cases he : pyTruthy event.session.customer_email = true
          · by_cases hsid : pyTruthy event.session.song_id = true
            · match cs with
              | [] => simpa [stripe_webhook, hws, ht, he, hsid] using hinv
              | c :: cs' =>
                by_cases hau : pyTruthy (pyOrOpt c.url c.audio_url) = true
                · simp only [stripe_webhook, hws, ht, he, hsid, hau]
                  simp only [if_pos, Bool.not_true, Bool.false_eq_true,
                    if_false, ite_true, ite_false]
                  match w with
                  | false => simpa using hinv
                  | true =>
                    simp [_save_share_store]
                    exact subtitleAllFixed_storeSet _ _ _ hinv rfl
                · simpa [stripe_webhook, hws, ht, he, hsid, hau] using hinv
            · simpa [stripe_webhook, hws, ht, he, hsid] using hinv
          · simpa [stripe_webhook, hws, ht, he] using hinv
        · simpa [stripe_webhook, hws, ht] using hinv
    · simpa [stripe_webhook, hws] using hinv

theorem C10_witness :
    subtitleAllFixed (_load_share_store fileEx) = true ∧
    subtitleAllFixed (_load_share_store (.valid [("tok", recEx)])) = true ∧
    subtitleAllFixed (_load_share_store
      (stripe_webhook (some "whsec_x") (.ok eventEx) [choiceEx] "tok" 0
        true true fileEx).file) = true := by
  have h := C10_subtitle_constant reqEx [choiceEx] 0 "tok" true fileEx
    (some "whsec_x") (.ok eventEx) true
    "https://shoutoutsong.com/share.html?t=tok" (.valid [("tok", recEx)])
    rfl ?hc
  case hc =>
    have hclean : _cleanup_share_store [("tok", oldRecEx)] 0 =
        [("tok", oldRecEx)] := by
      rw [cleanup_cons, if_neg (by norm_num [oldRecEx, SHARE_TTL_SECONDS]),
        cleanup_nil]
    simp only [create_share_link, fileEx, _load_share_store, hclean]
    rfl
  exact ⟨rfl, h.1, h.2⟩

end Shoutout
